import Mathlib

/-!
Shallow embedding of `neat/genes.py` (gene layer of the NEAT genotype):
`BaseGene` (ordering, copy, crossover) and the two concrete variants
`DefaultNodeGene` (bias, response, activation, aggregation) and
`DefaultConnectionGene` (weight, enabled), with their `distance` methods.

Modelling conventions:
- Python floats are modelled as exact rationals (`ℚ`); every numeric scenario
  in the development uses values on which IEEE double arithmetic is exact.
- Python keys are modelled by `PyKey`: an int, a string, or a tuple of
  int/string elements (enough to express well-formed keys of both gene
  variants and ill-shaped keys).
- `random() > 0.5` draws are modelled by an explicit stream `d : Nat → Bool`,
  one coin per declared attribute, in declaration order.
- Methods that `assert` (or would raise) are modelled in `Except String`.
-/

namespace NeatGenes

/-- A scalar Python value usable inside a gene key: an int or a str. -/
inductive PyScalar where
  | int : Int → PyScalar
  | str : String → PyScalar
deriving DecidableEq, Repr

/-- A Python value usable as a gene key: a scalar or a tuple of scalars. -/
inductive PyKey where
  | scalar : PyScalar → PyKey
  | tup : List PyScalar → PyKey
deriving DecidableEq, Repr

/-- Python `isinstance(k, int)` for a key. -/
def PyKey.isInt : PyKey → Bool
  | .scalar (.int _) => true
  | _ => false

/-- Python `isinstance(k, tuple)` for a key: any tuple passes, whatever its
arity or element types. -/
def PyKey.isTuple : PyKey → Bool
  | .tup _ => true
  | _ => false

/-- Python `isinstance(self.key, type(other.key))` as used by
`BaseGene.__lt__`: the two keys carry the same Python type. -/
def sameType : PyKey → PyKey → Bool
  | .scalar (.int _), .scalar (.int _) => true
  | .scalar (.str _), .scalar (.str _) => true
  | .tup _, .tup _ => true
  | _, _ => false

/-- Python `==` on key scalars: values of different types compare unequal
without error. -/
def PyScalar.pyEq : PyScalar → PyScalar → Bool
  | .int a, .int b => a == b
  | .str a, .str b => a == b
  | _, _ => false

/-- Python `<` on key scalars: int/int and str/str compare; a mixed-type
comparison raises `TypeError`. -/
def PyScalar.pyLt : PyScalar → PyScalar → Except String Bool
  | .int a, .int b => .ok (decide (a < b))
  | .str a, .str b => .ok (decide (a < b))
  | _, _ => .error "TypeError: unorderable scalar types"

/-- Python `<` on tuples: lexicographic; the first elementwise-unequal pair
decides via scalar `<` (which may raise); a strict prefix is smaller. -/
def lexLt : List PyScalar → List PyScalar → Except String Bool
  | [], [] => .ok false
  | [], _ :: _ => .ok true
  | _ :: _, [] => .ok false
  | a :: as, b :: bs => if a.pyEq b then lexLt as bs else a.pyLt b

/-- Python `<` on keys: scalars via scalar `<`, tuples lexicographically,
and a scalar/tuple comparison raises `TypeError`. -/
def PyKey.pyLt : PyKey → PyKey → Except String Bool
  | .scalar a, .scalar b => a.pyLt b
  | .tup as, .tup bs => lexLt as bs
  | _, _ => .error "TypeError: unorderable key types"

/-- `BaseGene.__lt__`: asserts `isinstance(self.key, type(other.key))`, then
returns `self.key < other.key`. -/
def BaseGene.lt (selfKey otherKey : PyKey) : Except String Bool :=
  if sameType selfKey otherKey then selfKey.pyLt otherKey
  else .error "Cannot compare keys"

/-- Whether an `Except` computation succeeded. -/
def exceptIsOk {ε α : Type} : Except ε α → Bool
  | .ok _ => true
  | .error _ => false

/-- The message of the key-equality assertion in `BaseGene.crossover`. -/
def keyMismatchMsg : String := "assert self.key == gene2.key"

/-- The configuration object as consumed by the gene layer: only the
compatibility weight coefficient is read by `distance`. -/
structure Config where
  compatibility_weight_coefficient : ℚ

/-- A value held by a function-valued gene attribute (activation or
aggregation): an option name, optionally carrying its own `distance` method
(`genes.py` probes `hasattr(value, 'distance')`; the method is applied to the
other value, modelled here by its name). A plain option-name string has
`dist = none`. -/
structure FuncVal where
  name : String
  dist : Option (String → ℚ)

/-- Python `!=` between two function-attribute values, as reached by the
`elif` branches of `DefaultNodeGene.distance` (so only when the left value
has no `distance` method, i.e. is a plain string): two strings compare by
value; a string and a method-bearing object are of different types and
compare unequal. -/
def funcDiff : FuncVal → FuncVal → Bool
  | ⟨a, none⟩, ⟨b, none⟩ => a != b
  | _, _ => true

/-- `DefaultNodeGene`: key plus one value per declared attribute
(`bias`, `response`, `activation`, `aggregation`). -/
structure DefaultNodeGene where
  key : PyKey
  bias : ℚ
  response : ℚ
  activation : FuncVal
  aggregation : FuncVal

/-- `DefaultConnectionGene`: key plus one value per declared attribute
(`weight`, `enabled`). -/
structure DefaultConnectionGene where
  key : PyKey
  weight : ℚ
  enabled : Bool

/-- `DefaultNodeGene.__init__`: asserts `isinstance(key, int)` before storing
the key. -/
def DefaultNodeGene.checkKey (key : PyKey) : Except String PyKey :=
  if key.isInt then .ok key
  else .error "DefaultNodeGene key must be an int"

/-- `DefaultConnectionGene.__init__`: asserts `isinstance(key, tuple)` before
storing the key. -/
def DefaultConnectionGene.checkKey (key : PyKey) : Except String PyKey :=
  if key.isTuple then .ok key
  else .error "DefaultConnectionGene key must be a tuple"

/-- The spec's stated key shape for a connection gene, written from the
spec's words for comparison with the code's check: an ordered pair of two
integers. -/
def specConnKeyShape : PyKey → Bool
  | .tup [.int _, .int _] => true
  | _ => false

/-- `BaseGene.copy` instantiated at `DefaultNodeGene`: a fresh gene with the
same key; each attribute value is `value.copy()` when the value has a `copy`
method, else the value itself. The value types stored here (float, str /
function tag) define no `copy` method, so every value is taken as is. -/
def DefaultNodeGene.copy (g : DefaultNodeGene) : DefaultNodeGene :=
  { key := g.key
    bias := g.bias
    response := g.response
    activation := g.activation
    aggregation := g.aggregation }

/-- `BaseGene.copy` instantiated at `DefaultConnectionGene` (float and bool
values define no `copy` method). -/
def DefaultConnectionGene.copy (g : DefaultConnectionGene) : DefaultConnectionGene :=
  { key := g.key
    weight := g.weight
    enabled := g.enabled }

/-- `BaseGene.crossover` instantiated at `DefaultNodeGene`: asserts
`self.key == gene2.key`, then builds a fresh gene with that key whose i-th
declared attribute comes from `self` when the i-th draw (`random() > 0.5`)
is true, else from `gene2` (the chosen value copied by the same rule as
`copy`). -/
def DefaultNodeGene.crossover (self gene2 : DefaultNodeGene) (d : Nat → Bool) :
    Except String DefaultNodeGene :=
  if self.key = gene2.key then
    .ok { key := self.key
          bias := if d 0 then self.bias else gene2.bias
          response := if d 1 then self.response else gene2.response
          activation := if d 2 then self.activation else gene2.activation
          aggregation := if d 3 then self.aggregation else gene2.aggregation }
  else .error keyMismatchMsg

/-- `BaseGene.crossover` instantiated at `DefaultConnectionGene`. -/
def DefaultConnectionGene.crossover (self gene2 : DefaultConnectionGene) (d : Nat → Bool) :
    Except String DefaultConnectionGene :=
  if self.key = gene2.key then
    .ok { key := self.key
          weight := if d 0 then self.weight else gene2.weight
          enabled := if d 1 then self.enabled else gene2.enabled }
  else .error keyMismatchMsg

/-- `DefaultNodeGene.distance`: `|Δbias| + |Δresponse|`, plus for each of
activation and aggregation either the value's own `distance` applied to the
other value (when `hasattr(value,'distance')`) or `1.0` if the two values
differ; the sum scaled by the compatibility weight coefficient. -/
def DefaultNodeGene.distance (self other : DefaultNodeGene) (config : Config) : ℚ :=
  let d := |self.bias - other.bias| + |self.response - other.response|
  let d := match self.activation.dist with
    | some f => d + f other.activation.name
    | none => if funcDiff self.activation other.activation then d + 1 else d
  let d := match self.aggregation.dist with
    | some f => d + f other.aggregation.name
    | none => if funcDiff self.aggregation other.aggregation then d + 1 else d
  d * config.compatibility_weight_coefficient

/-- `DefaultConnectionGene.distance`: `|Δweight|`, plus `1.0` when the
enabled flags differ, scaled by the compatibility weight coefficient. -/
def DefaultConnectionGene.distance (self other : DefaultConnectionGene) (config : Config) : ℚ :=
  let d := |self.weight - other.weight|
  let d := if self.enabled != other.enabled then d + 1 else d
  d * config.compatibility_weight_coefficient

/-- A gene object of either variant. -/
inductive Gene where
  | node : DefaultNodeGene → Gene
  | conn : DefaultConnectionGene → Gene

/-- The key of a gene of either variant. -/
def Gene.key : Gene → PyKey
  | .node g => g.key
  | .conn g => g.key

/-- `BaseGene.copy` on a gene of either variant. -/
def Gene.copy : Gene → Gene
  | .node g => .node g.copy
  | .conn g => .conn g.copy

/-- `BaseGene.crossover` on genes of either variant. Crossing a node gene
with a connection gene also fails (on the key assertion when the keys
differ, otherwise on the attribute lookup in the other variant). -/
def Gene.crossover : Gene → Gene → (Nat → Bool) → Except String Gene
  | .node a, .node b, d => (DefaultNodeGene.crossover a b d).map .node
  | .conn a, .conn b, d => (DefaultConnectionGene.crossover a b d).map .conn
  | _, _, _ => .error "mixed gene variants"

/-!
Heap model for the frame-effect properties. Python genes are heap-allocated
objects: a heap is a list of gene objects, an object is an index into it.
`BaseGene.copy` and `BaseGene.crossover` construct a fresh object
(`self.__class__(self.key)`) and write attributes only on that fresh object,
which the model renders as appending to the heap; `BaseGene.mutate` writes
(`setattr`) only on `self`, rendered as updating one index in place.
-/

/-- A heap of gene objects; an object identity is an index into the list. -/
abbrev Heap := List Gene

/-- `BaseGene.copy` as a heap operation: read the gene at `i`, allocate its
copy as a fresh object at the end of the heap. -/
def copyOp (h : Heap) (i : Nat) : Heap :=
  match h[i]? with
  | some g => h ++ [g.copy]
  | none => h

/-- `BaseGene.mutate` as a heap operation: in place, the gene at `i` has
each declared attribute value replaced by its attribute's `mutate_value`
output. The attribute layer is outside this module, so the overall outcome
is abstracted as an arbitrary update `f` applied to the object at `i`; no
other object is written. -/
def mutateOp (h : Heap) (i : Nat) (f : Gene → Gene) : Heap :=
  match h[i]? with
  | some g => h.set i (f g)
  | none => h

/-- `BaseGene.crossover` as a heap operation: read the parents at `i` and
`j`, and when crossover succeeds allocate the child as a fresh object at the
end of the heap. -/
def crossoverOp (h : Heap) (i j : Nat) (d : Nat → Bool) : Option Heap :=
  h[i]?.bind fun g1 => h[j]?.bind fun g2 =>
    (Gene.crossover g1 g2 d).toOption.map fun c => h ++ [c]

/-!
Theorems settling the claims.
-/

/-- Claim C1, counterexample: the key `("a", "b")` is not a pair of integers,
yet `DefaultConnectionGene` construction succeeds on it — the constructor
only checks `isinstance(key, tuple)`, so the claim as stated is false. -/
theorem c1_counterexample :
    specConnKeyShape (PyKey.tup [.str "a", .str "b"]) = false ∧
    exceptIsOk (DefaultConnectionGene.checkKey (PyKey.tup [.str "a", .str "b"])) = true := by
  constructor <;> rfl

/-- Claim C1, amended: node-gene construction succeeds exactly on integer
keys; connection-gene construction succeeds exactly on tuple keys (of any
shape, so in particular on every pair of integers). -/
theorem c1_construction :
    (∀ k : PyKey, exceptIsOk (DefaultNodeGene.checkKey k) = k.isInt) ∧
    (∀ k : PyKey, exceptIsOk (DefaultConnectionGene.checkKey k) = k.isTuple) ∧
    (∀ k : PyKey, specConnKeyShape k = true →
      exceptIsOk (DefaultConnectionGene.checkKey k) = true) := by
  refine ⟨fun k => ?_, fun k => ?_, fun k hk => ?_⟩
  · unfold DefaultNodeGene.checkKey
    cases h : k.isInt <;> simp [h, exceptIsOk]
  · unfold DefaultConnectionGene.checkKey
    cases h : k.isTuple <;> simp [h, exceptIsOk]
  · unfold DefaultConnectionGene.checkKey
    match k, hk with
    | .tup [.int _, .int _], _ => rfl

/-- Claim C1, witness for the amended theorem at concrete keys. -/
theorem c1_witness :
    exceptIsOk (DefaultNodeGene.checkKey (PyKey.scalar (.int 5))) = (PyKey.scalar (.int 5)).isInt ∧
    exceptIsOk (DefaultConnectionGene.checkKey (PyKey.tup [.int 1, .int 2])) = true :=
  ⟨c1_construction.1 (PyKey.scalar (.int 5)),
   c1_construction.2.2 (PyKey.tup [.int 1, .int 2]) rfl⟩

/-- Claim C2: for genes of the same variant, crossover fails with the
key-mismatch assertion exactly when the keys differ, and passes the key
check (returns a gene) exactly when the keys agree. -/
theorem c2_crossover_key_check :
    (∀ (g1 g2 : DefaultNodeGene) (d : Nat → Bool),
      (DefaultNodeGene.crossover g1 g2 d = .error keyMismatchMsg ↔ g1.key ≠ g2.key) ∧
      (exceptIsOk (DefaultNodeGene.crossover g1 g2 d) = true ↔ g1.key = g2.key)) ∧
    (∀ (g1 g2 : DefaultConnectionGene) (d : Nat → Bool),
      (DefaultConnectionGene.crossover g1 g2 d = .error keyMismatchMsg ↔ g1.key ≠ g2.key) ∧
      (exceptIsOk (DefaultConnectionGene.crossover g1 g2 d) = true ↔ g1.key = g2.key)) := by
  constructor <;> intro g1 g2 d <;>
    by_cases h : g1.key = g2.key <;>
      simp [DefaultNodeGene.crossover, DefaultConnectionGene.crossover, exceptIsOk, h]

/-- Claim C2, witness: crossover of two concrete connection genes with
different keys fails with the key-mismatch error. -/
theorem c2_witness :
    DefaultConnectionGene.crossover ⟨PyKey.tup [.int 1, .int 2], 0, true⟩
      ⟨PyKey.tup [.int 1, .int 3], 0, true⟩ (fun _ => true) = .error keyMismatchMsg :=
  ((c2_crossover_key_check.2 ⟨PyKey.tup [.int 1, .int 2], 0, true⟩
      ⟨PyKey.tup [.int 1, .int 3], 0, true⟩ (fun _ => true)).1).mpr (by decide)

/-- Claim C3: crossing a gene with an identical clone of itself gives back,
for every outcome of the per-attribute draws, a gene with the same key and
the shared value at every declared attribute (i.e. a gene equal to the
parent). -/
theorem c3_crossover_clone :
    (∀ (g : DefaultNodeGene) (d : Nat → Bool),
      DefaultNodeGene.crossover g g.copy d = .ok g) ∧
    (∀ (g : DefaultConnectionGene) (d : Nat → Bool),
      DefaultConnectionGene.crossover g g.copy d = .ok g) := by
  constructor <;> intro g d <;>
    simp [DefaultNodeGene.crossover, DefaultConnectionGene.crossover,
      DefaultNodeGene.copy, DefaultConnectionGene.copy]

/-- Claim C4: for connection genes with equal keys, distance is
`(|Δweight| + (1 if enabled flags differ else 0))` times the compatibility
weight coefficient. -/
theorem c4_conn_distance (a b : DefaultConnectionGene) (config : Config)
    (_hk : a.key = b.key) :
    DefaultConnectionGene.distance a b config =
      (|a.weight - b.weight| + if a.enabled != b.enabled then 1 else 0) *
        config.compatibility_weight_coefficient := by
  unfold DefaultConnectionGene.distance
  split <;> ring

/-- Claim C4, witness: weights `2` and `-1`, enabled `true`/`false`,
coefficient `1/2`, give distance `2`. -/
theorem c4_witness :
    DefaultConnectionGene.distance ⟨PyKey.tup [.int 1, .int 2], 2, true⟩
      ⟨PyKey.tup [.int 1, .int 2], -1, false⟩ ⟨1/2⟩ = 2 := by
  rw [c4_conn_distance ⟨PyKey.tup [.int 1, .int 2], 2, true⟩
    ⟨PyKey.tup [.int 1, .int 2], -1, false⟩ ⟨1/2⟩ rfl]
  norm_num

/-- Claim C5: for node genes with equal keys whose activation and
aggregation values are plain option names (no custom `distance` method),
distance is `(|Δbias| + |Δresponse| + (1 if activations differ else 0) +
(1 if aggregations differ else 0))` times the coefficient; when the left
gene's activation (resp. aggregation) value does define its own `distance`
method, that method applied to the other value supplies the penalty
instead. -/
theorem c5_node_distance :
    (∀ (a b : DefaultNodeGene) (config : Config), a.key = b.key →
      a.activation.dist = none → b.activation.dist = none →
      a.aggregation.dist = none → b.aggregation.dist = none →
      DefaultNodeGene.distance a b config =
        (|a.bias - b.bias| + |a.response - b.response| +
          (if a.activation.name != b.activation.name then 1 else 0) +
          (if a.aggregation.name != b.aggregation.name then 1 else 0)) *
          config.compatibility_weight_coefficient) ∧
    (∀ (a b : DefaultNodeGene) (config : Config) (f : String → ℚ), a.key = b.key →
      a.activation.dist = some f →
      a.aggregation.dist = none → b.aggregation.dist = none →
      DefaultNodeGene.distance a b config =
        (|a.bias - b.bias| + |a.response - b.response| + f b.activation.name +
          (if a.aggregation.name != b.aggregation.name then 1 else 0)) *
          config.compatibility_weight_coefficient) ∧
    (∀ (a b : DefaultNodeGene) (config : Config) (f : String → ℚ), a.key = b.key →
      a.activation.dist = none → b.activation.dist = none →
      a.aggregation.dist = some f →
      DefaultNodeGene.distance a b config =
        (|a.bias - b.bias| + |a.response - b.response| +
          (if a.activation.name != b.activation.name then 1 else 0) +
          f b.aggregation.name) *
          config.compatibility_weight_coefficient) := by
  refine ⟨?_, ?_, ?_⟩
  · rintro ⟨ka, ba, ra, ⟨an, ad⟩, ⟨gn, gd⟩⟩ ⟨kb, bb, rb, ⟨bn, bd⟩, ⟨hn, hd⟩⟩ config _hk h1 h2 h3 h4
    simp only at h1 h2 h3 h4
    subst h1 h2 h3 h4
    simp only [DefaultNodeGene.distance, funcDiff]
    split <;> split <;> ring
  · rintro ⟨ka, ba, ra, ⟨an, ad⟩, ⟨gn, gd⟩⟩ ⟨kb, bb, rb, ⟨bn, bd⟩, ⟨hn, hd⟩⟩ config f _hk h1 h3 h4
    simp only at h1 h3 h4
    subst h1 h3 h4
    simp only [DefaultNodeGene.distance, funcDiff]
    split <;> ring
  · rintro ⟨ka, ba, ra, ⟨an, ad⟩, ⟨gn, gd⟩⟩ ⟨kb, bb, rb, ⟨bn, bd⟩, ⟨hn, hd⟩⟩ config f _hk h1 h2 h3
    simp only at h1 h2 h3
    subst h1 h2 h3
    simp only [DefaultNodeGene.distance, funcDiff]
    split <;> ring

/-- Claim C5, witness: the spec scenario — key 7, biases `1`/`-1`, responses
`0`, both genes `sigmoid`/`sum`, coefficient `1` — gives distance `2`. -/
theorem c5_witness :
    DefaultNodeGene.distance
      ⟨PyKey.scalar (.int 7), 1, 0, ⟨"sigmoid", none⟩, ⟨"sum", none⟩⟩
      ⟨PyKey.scalar (.int 7), -1, 0, ⟨"sigmoid", none⟩, ⟨"sum", none⟩⟩ ⟨1⟩ = 2 := by
  rw [c5_node_distance.1
    ⟨PyKey.scalar (.int 7), 1, 0, ⟨"sigmoid", none⟩, ⟨"sum", none⟩⟩
    ⟨PyKey.scalar (.int 7), -1, 0, ⟨"sigmoid", none⟩, ⟨"sum", none⟩⟩ ⟨1⟩ rfl rfl rfl rfl rfl]
  norm_num

/-- Claim C6, counterexample: a node gene whose activation value carries its
own `distance` method returning `1` on every argument has self-distance
`1 ≠ 0` under coefficient `1` — `DefaultNodeGene.distance` adds
`self.activation.distance(other.activation)` whenever the value has a
`distance` method, with no requirement that it vanish on identical values. -/
theorem c6_counterexample :
    DefaultNodeGene.distance
      ⟨PyKey.scalar (.int 0), 0, 0, ⟨"weird", some fun _ => 1⟩, ⟨"sum", none⟩⟩
      ⟨PyKey.scalar (.int 0), 0, 0, ⟨"weird", some fun _ => 1⟩, ⟨"sum", none⟩⟩ ⟨1⟩ ≠ 0 := by
  simp [DefaultNodeGene.distance, funcDiff]

/-- Claim C6, amended: self-distance is `0` for every connection gene, and
for every node gene whose activation and aggregation values do not define
their own `distance` method (the case for all plain option-name values);
a custom method's value on identical arguments is added otherwise. -/
theorem c6_self_distance :
    (∀ (g : DefaultNodeGene) (config : Config),
      g.activation.dist = none → g.aggregation.dist = none →
      DefaultNodeGene.distance g g config = 0) ∧
    (∀ (g : DefaultConnectionGene) (config : Config),
      DefaultConnectionGene.distance g g config = 0) := by
  constructor
  · rintro ⟨k, b, r, ⟨an, ad⟩, ⟨gn, gd⟩⟩ config h1 h2
    simp only at h1 h2
    subst h1 h2
    simp [DefaultNodeGene.distance, funcDiff]
  · intro g config
    simp [DefaultConnectionGene.distance]

/-- Claim C6, witness for the amended theorem: concrete genes with plain
option-name values have self-distance `0` under coefficient `3`. -/
theorem c6_witness :
    DefaultNodeGene.distance
      ⟨PyKey.scalar (.int 7), 1, 2, ⟨"sigmoid", none⟩, ⟨"sum", none⟩⟩
      ⟨PyKey.scalar (.int 7), 1, 2, ⟨"sigmoid", none⟩, ⟨"sum", none⟩⟩ ⟨3⟩ = 0 ∧
    DefaultConnectionGene.distance ⟨PyKey.tup [.int 1, .int 2], 5, true⟩
      ⟨PyKey.tup [.int 1, .int 2], 5, true⟩ ⟨3⟩ = 0 :=
  ⟨c6_self_distance.1 ⟨PyKey.scalar (.int 7), 1, 2, ⟨"sigmoid", none⟩, ⟨"sum", none⟩⟩ ⟨3⟩ rfl rfl,
   c6_self_distance.2 ⟨PyKey.tup [.int 1, .int 2], 5, true⟩ ⟨3⟩⟩

/-- Claim C7, counterexample: two node genes with equal keys and all values
set, where only `a`'s activation value defines a `distance` method (constant
`5`): `distance(a, b) = 5` but `distance(b, a) = 1`, because the method is
probed on the left gene's value only and the fallback then compares a plain
string against a method-bearing object. -/
theorem c7_counterexample :
    DefaultNodeGene.distance
      ⟨PyKey.scalar (.int 0), 0, 0, ⟨"s", some fun _ => 5⟩, ⟨"sum", none⟩⟩
      ⟨PyKey.scalar (.int 0), 0, 0, ⟨"s", none⟩, ⟨"sum", none⟩⟩ ⟨1⟩ ≠
    DefaultNodeGene.distance
      ⟨PyKey.scalar (.int 0), 0, 0, ⟨"s", none⟩, ⟨"sum", none⟩⟩
      ⟨PyKey.scalar (.int 0), 0, 0, ⟨"s", some fun _ => 5⟩, ⟨"sum", none⟩⟩ ⟨1⟩ := by
  simp [DefaultNodeGene.distance, funcDiff]

/-- `!=` is symmetric for lawful boolean equality. -/
theorem bneSymm {α : Type} [BEq α] [LawfulBEq α] (a b : α) : (a != b) = (b != a) := by
  by_cases h : a = b
  · subst h; rfl
  · have h1 : (a == b) = false := beq_eq_false_iff_ne.mpr h
    have h2 : (b == a) = false := beq_eq_false_iff_ne.mpr (Ne.symm h)
    simp [bne, h1, h2]

/-- Claim C7, amended: distance is symmetric for every pair of connection
genes with equal keys, and for every pair of node genes with equal keys
whose activation and aggregation values on both sides do not define their
own `distance` method; a one-sided custom method breaks symmetry. -/
theorem c7_distance_symm :
    (∀ (a b : DefaultNodeGene) (config : Config), a.key = b.key →
      a.activation.dist = none → b.activation.dist = none →
      a.aggregation.dist = none → b.aggregation.dist = none →
      DefaultNodeGene.distance a b config = DefaultNodeGene.distance b a config) ∧
    (∀ (a b : DefaultConnectionGene) (config : Config), a.key = b.key →
      DefaultConnectionGene.distance a b config = DefaultConnectionGene.distance b a config) := by
  constructor
  · rintro ⟨ka, ba, ra, ⟨an, ad⟩, ⟨gn, gd⟩⟩ ⟨kb, bb, rb, ⟨bn, bd⟩, ⟨hn, hd⟩⟩ config _hk h1 h2 h3 h4
    simp only at h1 h2 h3 h4
    subst h1 h2 h3 h4
    simp only [DefaultNodeGene.distance, funcDiff]
    rw [abs_sub_comm ba bb, abs_sub_comm ra rb, bneSymm an bn, bneSymm gn hn]
  · intro a b config _hk
    simp only [DefaultConnectionGene.distance]
    rw [abs_sub_comm, bneSymm a.enabled b.enabled]

/-- Claim C7, witness for the amended theorem at a concrete pair of node
genes and a concrete pair of connection genes. -/
theorem c7_witness :
    DefaultNodeGene.distance
      ⟨PyKey.scalar (.int 7), 1, 0, ⟨"sigmoid", none⟩, ⟨"sum", none⟩⟩
      ⟨PyKey.scalar (.int 7), -1, 2, ⟨"tanh", none⟩, ⟨"sum", none⟩⟩ ⟨2⟩ =
    DefaultNodeGene.distance
      ⟨PyKey.scalar (.int 7), -1, 2, ⟨"tanh", none⟩, ⟨"sum", none⟩⟩
      ⟨PyKey.scalar (.int 7), 1, 0, ⟨"sigmoid", none⟩, ⟨"sum", none⟩⟩ ⟨2⟩ ∧
    DefaultConnectionGene.distance ⟨PyKey.tup [.int 1, .int 2], 2, true⟩
      ⟨PyKey.tup [.int 1, .int 2], -1, false⟩ ⟨2⟩ =
    DefaultConnectionGene.distance ⟨PyKey.tup [.int 1, .int 2], -1, false⟩
      ⟨PyKey.tup [.int 1, .int 2], 2, true⟩ ⟨2⟩ :=
  ⟨c7_distance_symm.1 ⟨PyKey.scalar (.int 7), 1, 0, ⟨"sigmoid", none⟩, ⟨"sum", none⟩⟩
      ⟨PyKey.scalar (.int 7), -1, 2, ⟨"tanh", none⟩, ⟨"sum", none⟩⟩ ⟨2⟩ rfl rfl rfl rfl rfl,
   c7_distance_symm.2 ⟨PyKey.tup [.int 1, .int 2], 2, true⟩
      ⟨PyKey.tup [.int 1, .int 2], -1, false⟩ ⟨2⟩ rfl⟩

/-- Claim C8: gene ordering is by key alone — for same-typed keys `__lt__`
returns exactly `self.key < other.key`; a node gene with key 3 is less than
one with key 5; and comparing a node-gene key (an int) against a
connection-gene key (a tuple) fails the `isinstance` assertion. -/
theorem c8_ordering :
    (∀ g1 g2 : Gene, sameType g1.key g2.key = true →
      BaseGene.lt g1.key g2.key = g1.key.pyLt g2.key) ∧
    (∀ g1 g2 : DefaultNodeGene,
      g1.key = PyKey.scalar (.int 3) → g2.key = PyKey.scalar (.int 5) →
      BaseGene.lt g1.key g2.key = .ok true) ∧
    (∀ (gn : DefaultNodeGene) (gc : DefaultConnectionGene),
      gn.key.isInt = true → gc.key.isTuple = true →
      exceptIsOk (BaseGene.lt gn.key gc.key) = false) := by
  refine ⟨fun g1 g2 h => ?_, fun g1 g2 h1 h2 => ?_, fun gn gc h1 h2 => ?_⟩
  · unfold BaseGene.lt
    rw [if_pos h]
  · rw [h1, h2]; rfl
  · match hk1 : gn.key, h1 with
    | .scalar (.int n), _ =>
      match hk2 : gc.key, h2 with
      | .tup l, _ => rfl

/-- Claim C8, witness: concrete node genes with keys 3 and 5 compare
`.ok true`; a concrete node-gene key against a concrete connection-gene key
fails. -/
theorem c8_witness :
    BaseGene.lt (DefaultNodeGene.mk (PyKey.scalar (.int 3)) 0 0 ⟨"sigmoid", none⟩ ⟨"sum", none⟩).key
      (DefaultNodeGene.mk (PyKey.scalar (.int 5)) 0 0 ⟨"sigmoid", none⟩ ⟨"sum", none⟩).key =
      .ok true ∧
    exceptIsOk (BaseGene.lt
      (DefaultNodeGene.mk (PyKey.scalar (.int 3)) 0 0 ⟨"sigmoid", none⟩ ⟨"sum", none⟩).key
      (DefaultConnectionGene.mk (PyKey.tup [.int 1, .int 2]) 0 true).key) = false :=
  ⟨c8_ordering.2.1 (DefaultNodeGene.mk (PyKey.scalar (.int 3)) 0 0 ⟨"sigmoid", none⟩ ⟨"sum", none⟩)
      (DefaultNodeGene.mk (PyKey.scalar (.int 5)) 0 0 ⟨"sigmoid", none⟩ ⟨"sum", none⟩) rfl rfl,
   c8_ordering.2.2 (DefaultNodeGene.mk (PyKey.scalar (.int 3)) 0 0 ⟨"sigmoid", none⟩ ⟨"sum", none⟩)
      (DefaultConnectionGene.mk (PyKey.tup [.int 1, .int 2]) 0 true) rfl rfl⟩

/-- Lookup in an appended heap at an index inside the original part. -/
theorem getElemAppendLt {α : Type} (l1 l2 : List α) (n : Nat) (hn : n < l1.length) :
    (l1 ++ l2)[n]? = l1[n]? := by
  simp [List.getElem?_append, hn]

/-- Claim C9: `copy` allocates a fresh object holding the same key and,
per declared attribute, an equal value; mutating the copy in place — for
any mutation outcome — leaves the original object's key and attribute
values unchanged. -/
theorem c9_copy_independent (h : Heap) (i : Nat) (g : Gene) (hg : h[i]? = some g) :
    (copyOp h i)[h.length]? = some g.copy ∧
    g.copy = g ∧
    (∀ f : Gene → Gene, (mutateOp (copyOp h i) h.length f)[i]? = some g) := by
  obtain ⟨hi, -⟩ := List.getElem?_eq_some.mp hg
  have hcopy : copyOp h i = h ++ [g.copy] := by
    unfold copyOp; rw [hg]
  have hlen : (h ++ [g.copy])[h.length]? = some g.copy := List.getElem?_concat_length h g.copy
  refine ⟨by rw [hcopy]; exact hlen, by cases g <;> rfl, fun f => ?_⟩
  unfold mutateOp
  rw [hcopy, hlen]
  rw [List.getElem?_set_ne (Nat.ne_of_lt hi).symm]
  rw [getElemAppendLt h [g.copy] i hi]
  exact hg

/-- Claim C9, witness: on a one-object heap, copying the gene at index 0
and then mutating the copy (at index 1) arbitrarily leaves the original
object intact. -/
theorem c9_witness :
    (copyOp [Gene.conn ⟨PyKey.tup [.int 1, .int 2], 7, true⟩] 0)[1]? =
      some (Gene.conn ⟨PyKey.tup [.int 1, .int 2], 7, true⟩).copy ∧
    (Gene.conn ⟨PyKey.tup [.int 1, .int 2], 7, true⟩).copy =
      Gene.conn ⟨PyKey.tup [.int 1, .int 2], 7, true⟩ ∧
    (mutateOp (copyOp [Gene.conn ⟨PyKey.tup [.int 1, .int 2], 7, true⟩] 0) 1
        (fun _ => Gene.conn ⟨PyKey.tup [.int 1, .int 2], 99, false⟩))[0]? =
      some (Gene.conn ⟨PyKey.tup [.int 1, .int 2], 7, true⟩) := by
  obtain ⟨h1, h2, h3⟩ :=
    c9_copy_independent [Gene.conn ⟨PyKey.tup [.int 1, .int 2], 7, true⟩] 0
      (Gene.conn ⟨PyKey.tup [.int 1, .int 2], 7, true⟩) rfl
  exact ⟨h1, h2, h3 (fun _ => Gene.conn ⟨PyKey.tup [.int 1, .int 2], 99, false⟩)⟩

/-- Claim C10: when crossover of the genes at `i` and `j` succeeds, the
resulting heap still holds both parent objects unchanged — the child is a
freshly allocated object and no attribute of either parent is written. -/
theorem c10_crossover_frame (h : Heap) (i j : Nat) (g1 g2 : Gene) (d : Nat → Bool)
    (h' : Heap) (hg1 : h[i]? = some g1) (hg2 : h[j]? = some g2)
    (hx : crossoverOp h i j d = some h') :
    h'[i]? = some g1 ∧ h'[j]? = some g2 := by
  obtain ⟨hi, -⟩ := List.getElem?_eq_some.mp hg1
  obtain ⟨hj, -⟩ := List.getElem?_eq_some.mp hg2
  unfold crossoverOp at hx
  rw [hg1, hg2] at hx
  simp only [Option.some_bind] at hx
  cases hc : Gene.crossover g1 g2 d with
  | error e => rw [hc] at hx; simp [Except.toOption] at hx
  | ok c =>
    rw [hc] at hx
    simp only [Except.toOption, Option.map_some'] at hx
    obtain rfl : h ++ [c] = h' := by simpa using hx
    rw [getElemAppendLt h [c] i hi, getElemAppendLt h [c] j hj]
    exact ⟨hg1, hg2⟩

/-- Claim C10, witness: crossing the two equal-keyed connection genes of a
concrete two-object heap leaves both parents unchanged in the result. -/
theorem c10_witness :
    ∃ h' : Heap,
      crossoverOp [Gene.conn ⟨PyKey.tup [.int 1, .int 2], 2, true⟩,
        Gene.conn ⟨PyKey.tup [.int 1, .int 2], -1, false⟩] 0 1 (fun n => n == 0) = some h' ∧
      h'[0]? = some (Gene.conn ⟨PyKey.tup [.int 1, .int 2], 2, true⟩) ∧
      h'[1]? = some (Gene.conn ⟨PyKey.tup [.int 1, .int 2], -1, false⟩) := by
  refine ⟨[Gene.conn ⟨PyKey.tup [.int 1, .int 2], 2, true⟩,
      Gene.conn ⟨PyKey.tup [.int 1, .int 2], -1, false⟩,
      Gene.conn ⟨PyKey.tup [.int 1, .int 2], 2, false⟩], rfl, ?_⟩
  exact c10_crossover_frame [Gene.conn ⟨PyKey.tup [.int 1, .int 2], 2, true⟩,
      Gene.conn ⟨PyKey.tup [.int 1, .int 2], -1, false⟩] 0 1
    (Gene.conn ⟨PyKey.tup [.int 1, .int 2], 2, true⟩)
    (Gene.conn ⟨PyKey.tup [.int 1, .int 2], -1, false⟩) (fun n => n == 0) _ rfl rfl rfl

end NeatGenes
